import Mathlib

/-!
Verification development for the kotaeba WebSocket STT client
(`src/main.py`, `src/models/websocket.py`).

The Python source is shallowly embedded: message payloads become a `Json`
inductive, the pydantic models become validation functions `Json → Option _`,
the per-message body of `_receive_transcription` becomes a step function on a
record of the client's buffers/flag, `_save_recording` / `_save_transcript`
become pure state transformers that also return the written artifact, and the
`_stream_audio` loop becomes a fold over a trace of per-iteration oracles
(device reads and transport-send outcomes).
-/

set_option maxHeartbeats 1000000

/-! ## Python string primitives used by the source -/

/-- The ASCII whitespace characters stripped by Python `str.strip()`
(the full Unicode whitespace set is restricted to ASCII here; every string
this development evaluates on is ASCII). -/
def pyIsSpace (c : Char) : Bool :=
  c == ' ' || c == '\t' || c == '\n' || c == '\r' || c == '\x0b' || c == '\x0c'

/-- Python `str.strip()`: drop whitespace from both ends. -/
def pyStrip (s : String) : String :=
  ⟨(((s.data.dropWhile pyIsSpace).reverse).dropWhile pyIsSpace).reverse⟩

/-- Python `str.isalpha()`: true iff the string is non-empty and every
character is alphabetic (restricted to ASCII letters, which covers every
string evaluated in this development). -/
def pyIsAlpha (s : String) : Bool :=
  !s.isEmpty && s.data.all Char.isAlpha

/-- Python `str.lower()` (ASCII case mapping). -/
def pyLower (s : String) : String :=
  ⟨s.data.map Char.toLower⟩

/-! ## JSON values

Payloads handed to `model_validate_json` are modelled as parsed JSON values;
JSON numbers are rationals (covering both integer and decimal literals). -/

inductive Json where
  | null : Json
  | bool : Bool → Json
  | num : Rat → Json
  | str : String → Json
  | arr : List Json → Json
  | obj : List (String × Json) → Json

/-- Whether a JSON value is an object (a Python `dict` after parsing). -/
def Json.isObj : Json → Bool
  | .obj _ => true
  | _ => false

/-- Field lookup in a parsed JSON object. Python's JSON parsing keeps the
last occurrence of a duplicated key, hence the lookup on the reversed list. -/
def lookupField (fields : List (String × Json)) (k : String) : Option Json :=
  fields.reverse.lookup k

/-! ## Pydantic field validators (src/models/websocket.py)

Each function validates one field: the argument is the raw JSON value found
under the field's key (`none` when the key is absent, in which case the
model's default applies). Pydantic's lax coercions between JSON scalar types
are abstracted to exact JSON types; no claim below depends on a coercion.
-/

/-- A `str` field with a default (used by `text`, default `""`, and
`message`, default `""`). -/
def validate_str_default (dflt : String) : Option Json → Option String
  | none => some dflt
  | some (.str s) => some s
  | some _ => none

/-- A `str | None` field with default `None` (used by `language`). -/
def validate_opt_str : Option Json → Option (Option String)
  | none => some none
  | some .null => some none
  | some (.str s) => some (some s)
  | some _ => none

/-- A `bool` field with a default (used by `is_partial`, default `True`). -/
def validate_bool_default (dflt : Bool) : Option Json → Option Bool
  | none => some dflt
  | some (.bool b) => some b
  | some _ => none

/-- A `float | None` field with `ge=0, le=1` and default `None`
(used by `confidence` and `progress`). -/
def validate_unit_float : Option Json → Option (Option Rat)
  | none => some none
  | some .null => some none
  | some (.num q) => if 0 ≤ q ∧ q ≤ 1 then some (some q) else none
  | some _ => none

/-- A `list[dict] | None` field with default `None` (used by `segments`):
every element must be a JSON object; the element dicts are untyped in the
source and are kept as raw objects. -/
def validate_segments : Option Json → Option (Option (List Json))
  | none => some none
  | some .null => some none
  | some (.arr xs) => if xs.all Json.isObj then some (some xs) else none
  | some _ => none

/-- The required `status: Literal[ "ready", "processing", "error", "closed"]`
field of `ServerStatus`: absent or non-matching values fail validation. -/
def validate_status_field : Option Json → Option String
  | some (.str s) =>
      if s = "ready" ∨ s = "processing" ∨ s = "error" ∨ s = "closed"
      then some s else none
  | _ => none

/-- The `timestamp: datetime` field of `ServerStatus`
(`default_factory=datetime.utcnow`). An absent field yields the factory
default, modelled as `none`; a present field must be a JSON string or number
(the datetime format parse itself is abstracted as accepting any string or
number — an over-approximation of `ServerStatus` acceptance that no claim
below depends on: the disjointness and drop arguments use only the
required/forbidden key structure). -/
def validate_timestamp : Option Json → Option (Option Json)
  | none => some none
  | some (.str s) => some (some (.str s))
  | some (.num q) => some (some (.num q))
  | some _ => none

/-! ## The two server message models -/

/-- `ServerTranscription` (websocket.py lines 41-62). -/
structure ServerTranscription where
  text : String
  segments : Option (List Json)
  is_partial : Bool
  language : Option String
  confidence : Option Rat

/-- `ServerStatus` (websocket.py lines 65-80). `timestamp` stores the raw
accepted JSON value, `none` meaning the `default_factory` value was used. -/
structure ServerStatus where
  status : String
  message : String
  timestamp : Option Json
  progress : Option Rat

/-- The field names of `ServerTranscription`; `class Config: extra = "forbid"`
rejects any other key. -/
def allowedTranscriptionKeys : List String :=
  [ "text", "segments", "is_partial", "language", "confidence"]

/-- The field names of `ServerStatus`; `extra = "forbid"` rejects any other
key. -/
def allowedStatusKeys : List String :=
  [ "status", "message", "timestamp", "progress"]

/-- `ServerTranscription.model_validate_json` on a parsed payload: the value
must be a JSON object, unknown keys fail validation (`extra = "forbid"`),
and each field validates with its default when absent. -/
def serverTranscription_validate (j : Json) : Option ServerTranscription :=
  match j with
  | .obj fields =>
      if fields.all (fun kv => allowedTranscriptionKeys.contains kv.1) then
        match validate_str_default "" (lookupField fields "text"),
              validate_segments (lookupField fields "segments"),
              validate_bool_default true (lookupField fields "is_partial"),
              validate_opt_str (lookupField fields "language"),
              validate_unit_float (lookupField fields "confidence") with
        | some t, some seg, some p, some lang, some conf =>
            some ⟨t, seg, p, lang, conf⟩
        | _, _, _, _, _ => none
      else none
  | _ => none

/-- `ServerStatus.model_validate_json` on a parsed payload: the value must be
a JSON object, unknown keys fail validation (`extra = "forbid"`), `status` is
required, and the remaining fields validate with defaults when absent. -/
def serverStatus_validate (j : Json) : Option ServerStatus :=
  match j with
  | .obj fields =>
      if fields.all (fun kv => allowedStatusKeys.contains kv.1) then
        match validate_status_field (lookupField fields "status"),
              validate_str_default "" (lookupField fields "message"),
              validate_timestamp (lookupField fields "timestamp"),
              validate_unit_float (lookupField fields "progress") with
        | some st, some msg, some ts, some pr => some ⟨st, msg, ts, pr⟩
        | _, _, _, _ => none
      else none
  | _ => none

/-! ## Message classification (main.py lines 151-162) -/

/-- The result of the try/except classification chain in
`_receive_transcription`. -/
inductive Classified where
  | transcription : ServerTranscription → Classified
  | status : ServerStatus → Classified
  | malformed : Classified

/-- Lines 151-162: try `ServerTranscription.model_validate_json` first; on
`ValidationError` try `ServerStatus.model_validate_json`; on a second
`ValidationError` the message is logged and dropped. -/
def classify_message (j : Json) : Classified :=
  match serverTranscription_validate j with
  | some t => .transcription t
  | none =>
      match serverStatus_validate j with
      | some s => .status s
      | none => .malformed

/-- The same chain with the opposite try-order, used to state that
classification is independent of the order (claim C4). -/
def classify_status_first (j : Json) : Classified :=
  match serverStatus_validate j with
  | some s => .status s
  | none =>
      match serverTranscription_validate j with
      | some t => .transcription t
      | none => .malformed

/-! ## ClientConfig language validation (websocket.py lines 13-18, 30-35) -/

/-- Validation pipeline of the `language` field of `ClientConfig`: the core
`Field(min_length=2, max_length=5)` constraints run first; the
`validate_language` post-validator then rejects a non-empty value that is not
`isalpha()` and returns the value lowercased. `none` is a pydantic
`ValidationError`; lengths count characters as Python `len` does. -/
def clientConfig_validate_language (v : String) : Option String :=
  if 2 ≤ v.length ∧ v.length ≤ 5 then
    if v ≠ "" ∧ ¬ pyIsAlpha v then none
    else some (pyLower v)
  else none

/-! ## Receive-path state and per-message step (main.py lines 145-182) -/

/-- The fields of `WebSocketSTTClient` the receive path can observe or
mutate while handling one message: the shared `running` flag and the two
accumulation buffers. Audio frames are byte strings, modelled as lists of
byte values. -/
structure RecvState where
  running : Bool
  transcript_buffer : List String
  audio_buffer : List (List Nat)
deriving Repr, DecidableEq

/-- The body of the `while self.running` loop of `_receive_transcription`
(lines 151-182) applied to one received payload: classify it; on a
`ServerTranscription`, strip the text and append it to `transcript_buffer`
when the stripped text is truthy (non-empty); on a `ServerStatus` only log;
on a doubly-failed validation log and `continue`. -/
def receive_step (st : RecvState) (msg : Json) : RecvState :=
  match classify_message msg with
  | .transcription t =>
      if pyStrip t.text ≠ "" then
        { st with transcript_buffer := st.transcript_buffer ++ [pyStrip t.text] }
      else st
  | .status _ => st
  | .malformed => st

/-- The receive loop over a finite trace of received payloads. -/
def receive_loop (msgs : List Json) (st : RecvState) : RecvState :=
  msgs.foldl receive_step st

/-- The transcript line a payload contributes: its stripped text, when the
payload validates as a `ServerTranscription` and the stripped text is
non-empty; nothing otherwise. -/
def transcript_line (msg : Json) : Option String :=
  match serverTranscription_validate msg with
  | some t => if pyStrip t.text ≠ "" then some (pyStrip t.text) else none
  | none => none

/-! ## Artifact flushes (main.py lines 106-143) -/

/-- The fields of the client `_save_recording` reads and writes. -/
structure AudioState where
  audio_buffer : List (List Nat)
  session_dir : Option String
deriving Repr, DecidableEq

/-- The WAV artifact written by `_save_recording`: the container metadata set
by `setnchannels`/`setsampwidth`/`setframerate` and the PCM payload passed to
`writeframes`. -/
structure WavArtifact where
  nchannels : Nat
  sampwidth : Nat
  framerate : Nat
  frames_data : List Nat
deriving Repr, DecidableEq

/-- `_save_recording` (lines 106-126): return immediately when the audio
buffer is empty or no session directory is set (both falsy); otherwise write
`b"".join(self.audio_buffer)` as the WAV frame payload and clear the buffer
in the `finally` block — also when the write itself raised (`write_ok`
models whether the `wave` write succeeded; on failure the exception is
logged and no artifact results, but the buffer is still cleared). The
function never raises: every exception is handled inside. -/
def save_recording (channels sampwidth rate : Nat) (write_ok : Bool)
    (s : AudioState) : AudioState × Option WavArtifact :=
  if s.audio_buffer = [] ∨ s.session_dir = none then (s, none)
  else
    ({ s with audio_buffer := [] },
     if write_ok then some ⟨channels, sampwidth, rate, s.audio_buffer.flatten⟩
     else none)

/-- The fields of the client `_save_transcript` reads and writes. -/
structure TranscriptState where
  transcript_buffer : List String
  session_dir : Option String
deriving Repr, DecidableEq

/-- `_save_transcript` (lines 128-143): return immediately when the
transcript buffer is empty or no session directory is set; otherwise write
`"\n".join(self.transcript_buffer)` and clear the buffer in the `finally`
block — also when the write raised. Never raises. -/
def save_transcript (write_ok : Bool) (s : TranscriptState) :
    TranscriptState × Option String :=
  if s.transcript_buffer = [] ∨ s.session_dir = none then (s, none)
  else
    ({ s with transcript_buffer := [] },
     if write_ok then some (String.intercalate "\n" s.transcript_buffer)
     else none)

/-- Split a byte sequence back into frames of `k` bytes each (the read-back
direction of the audio round trip; frames are fixed-size in the source:
`chunk_size` samples of `sampwidth * channels` bytes). -/
def chunkBytes (k : Nat) : List Nat → List (List Nat)
  | [] => []
  | a :: rest =>
      if _h : k = 0 then []
      else (a :: rest).take k :: chunkBytes k ((a :: rest).drop k)
termination_by l => l.length
decreasing_by simp [List.length_drop]; omega

/-! ## Send path (main.py lines 58-97)

`_stream_audio` shares `self.running` with the receive path and the signal
handler, so its loop is modelled over a trace of per-iteration oracles: the
value of the shared flag at the loop guard, the stream-active probe, the
bytes returned by the device read, and the outcome of the transport send.
The function itself never assigns `self.running`. -/

/-- Outcome of the `await websocket.send(data)` call of one iteration. -/
inductive SendOutcome where
  | ok : SendOutcome
  | raise : SendOutcome
deriving Repr, DecidableEq

/-- Whether a send outcome is a successful send. -/
def SendOutcome.isOk : SendOutcome → Bool
  | .ok => true
  | .raise => false

/-- One attempted iteration of the `_stream_audio` loop: the observations
the iteration makes of its environment. `running_at_except` is the value of
`self.running` read in the `except` clause (line 93) when the send raised —
the flag is shared, so it may differ from the value read at the guard. -/
structure Tick where
  running : Bool
  stream_active : Bool
  frame : List Nat
  send : SendOutcome
  running_at_except : Bool
deriving Repr, DecidableEq

/-- The client fields `_stream_audio` touches. `running` records assignments
performed by the send path itself (it performs none); `error_logged` records
whether the `except` clause called `logger.error` (line 94);
`save_recording_calls` counts calls of `_save_recording`. -/
structure SendPathState where
  running : Bool
  audio_buffer : List (List Nat)
  error_logged : Bool
  save_recording_calls : Nat
deriving Repr, DecidableEq

/-- The `while self.running and self.stream.is_active()` loop (lines 78-90):
read a frame, send it, and only after the send returned append the frame to
`audio_buffer`; a raising send leaves the loop for the `except` clause,
which logs iff `self.running` is still true there and swallows the
exception. An exhausted trace means the loop guard turned false (or the
task was cancelled at an await point) with no further reads. -/
def streamAudioLoop : List Tick → SendPathState → SendPathState
  | [], s => s
  | t :: rest, s =>
      if t.running && t.stream_active then
        match t.send with
        | .ok =>
            streamAudioLoop rest
              { s with audio_buffer := s.audio_buffer ++ [t.frame] }
        | .raise =>
            if t.running_at_except then { s with error_logged := true } else s
      else s

/-- `_stream_audio` in full: the loop followed by the `finally` block
(lines 95-97), which stops the capture stream and calls `_save_recording`
exactly once on every exit — guard false, raised send, or cancellation. -/
def streamAudioTask (ticks : List Tick) (s : SendPathState) : SendPathState :=
  let s1 := streamAudioLoop ticks s
  { s1 with save_recording_calls := s1.save_recording_calls + 1 }

/-! ## Session coordinator (main.py lines 191-263)

`run()` creates the send and receive tasks and then blocks on
`await stop_future` (line 245); `_save_transcript` (line 253) runs only
after that await returns. The four ways the running flag can leave the
active state are modelled as triggers. -/

/-- The four trigger paths that end a session's active phase. -/
inductive Trigger where
  | stopSignal : Trigger
  | peerClosure : Trigger
  | sendError : Trigger
  | recvError : Trigger
deriving Repr, DecidableEq

/-- Whether the trigger path resolves `stop_future`. Only the signal handler
(lines 237-239) calls `stop_future.set_result(True)`; the
`ConnectionClosed` handler (lines 184-186) sets `self.running = False`
without touching the future, and the two error handlers (lines 92-94 and
187-189) only log. -/
def stop_future_resolved : Trigger → Bool
  | .stopSignal => true
  | .peerClosure => false
  | .sendError => false
  | .recvError => false

/-- Whether the trigger makes `_stream_audio` terminate: the signal handler
sets `running = False` (line 238) and the task is cancelled (line 249); the
`ConnectionClosed` handler sets `running = False` (line 186), failing the
loop guard (line 78); a raising send exits the loop directly (line 92). A
receive-path error (lines 187-189) clears nothing, so the send loop keeps
running. -/
def send_path_exits : Trigger → Bool
  | .stopSignal => true
  | .peerClosure => true
  | .sendError => true
  | .recvError => false

/-- Observable flush behaviour of one session under a trigger. -/
structure SessionOutcome where
  save_recording_calls : Nat
  save_transcript_calls : Nat
  run_returns : Bool
deriving Repr, DecidableEq

/-- The session under one trigger, read off `run()` (lines 228-262):
`_save_recording` is called exactly once whenever `_stream_audio`
terminates (its `finally`, line 97) and not before; `_save_transcript` is
called exactly once after `await stop_future` returns (line 253) and
nowhere else — the `finally` of `run()` (lines 257-262) stops the stream,
terminates PyAudio and the server subprocess but flushes no buffer. -/
def session_run (t : Trigger) : SessionOutcome :=
  { save_recording_calls := if send_path_exits t then 1 else 0,
    save_transcript_calls := if stop_future_resolved t then 1 else 0,
    run_returns := stop_future_resolved t }

/-! ## Helper lemmas -/

/-- A lookup over keys all different from `k` finds nothing. -/
theorem lookup_eq_none_of_keys {β : Type} (l : List (String × β)) (k : String)
    (h : ∀ kv ∈ l, kv.1 ≠ k) : l.lookup k = none := by
  induction l with
  | nil => rfl
  | cons p rest ih =>
      have hp : p.1 ≠ k := h p (List.mem_cons_self p rest)
      have hk : (k == p.1) = false := by
        rw [beq_eq_false_iff_ne]
        exact fun he => hp he.symm
      simp [List.lookup, hk]
      intro a b hm he
      exact h (a, b) (List.mem_cons_of_mem _ hm) he.symm

/-- A successful lookup exhibits an entry with the looked-up key. -/
theorem mem_keys_of_lookup {β : Type} (l : List (String × β)) (k : String)
    (v : β) (h : l.lookup k = some v) : ∃ kv ∈ l, kv.1 = k := by
  induction l with
  | nil => simp [List.lookup] at h
  | cons p rest ih =>
      by_cases hk : (k == p.1) = true
      · exact ⟨p, List.mem_cons_self p rest, (eq_of_beq hk).symm⟩
      · rw [List.lookup_cons] at h
        rw [Bool.not_eq_true] at hk
        rw [hk] at h
        obtain ⟨kv, hm, he⟩ := ih h
        exact ⟨kv, List.mem_cons_of_mem _ hm, he⟩

/-- `lookupField` on an object none of whose keys is `k` finds nothing. -/
theorem lookupField_eq_none (fields : List (String × Json)) (k : String)
    (h : ∀ kv ∈ fields, kv.1 ≠ k) : lookupField fields k = none := by
  unfold lookupField
  exact lookup_eq_none_of_keys _ _ fun kv hkv => h kv (List.mem_reverse.mp hkv)

/-- A successful `lookupField` exhibits an entry with the looked-up key. -/
theorem lookupField_mem (fields : List (String × Json)) (k : String) (v : Json)
    (h : lookupField fields k = some v) : ∃ kv ∈ fields, kv.1 = k := by
  unfold lookupField at h
  obtain ⟨kv, hm, he⟩ := mem_keys_of_lookup _ _ _ h
  exact ⟨kv, List.mem_reverse.mp hm, he⟩

/-- No `ServerTranscription` field is named `status`. -/
theorem allowedT_ne_status (x : String)
    (h : allowedTranscriptionKeys.contains x = true) : x ≠ "status" := by
  intro he
  subst he
  exact absurd h (by decide)

/-- A payload that validates as a `ServerTranscription` is an object all of
whose keys are `ServerTranscription` fields. -/
theorem serverTranscription_validate_keys (fields : List (String × Json))
    (t : ServerTranscription)
    (h : serverTranscription_validate (Json.obj fields) = some t) :
    ∀ kv ∈ fields, allowedTranscriptionKeys.contains kv.1 = true := by
  by_cases hg : fields.all (fun kv => allowedTranscriptionKeys.contains kv.1) = true
  · exact fun kv hkv => List.all_eq_true.mp hg kv hkv
  · rw [serverTranscription_validate] at h
    rw [if_neg hg] at h
    exact absurd h (by simp)

/-- A payload with no `status` key cannot validate as a `ServerStatus`:
the field is required. -/
theorem serverStatus_validate_none_of_no_status (fields : List (String × Json))
    (h : lookupField fields "status" = none) :
    serverStatus_validate (Json.obj fields) = none := by
  rw [serverStatus_validate, h]
  by_cases hg : fields.all (fun kv => allowedStatusKeys.contains kv.1) = true
  · rw [if_pos hg]
    rfl
  · rw [if_neg hg]

/-- Schema disjointness: a payload never validates under both models. -/
theorem validators_disjoint (j : Json) :
    serverTranscription_validate j = none ∨ serverStatus_validate j = none := by
  cases hT : serverTranscription_validate j with
  | none => exact Or.inl rfl
  | some t =>
      right
      cases j with
      | obj fields =>
          apply serverStatus_validate_none_of_no_status
          apply lookupField_eq_none
          intro kv hkv
          exact allowedT_ne_status kv.1
            (serverTranscription_validate_keys fields t hT kv hkv)
      | null => simp [serverTranscription_validate] at hT
      | bool b => simp [serverTranscription_validate] at hT
      | num q => simp [serverTranscription_validate] at hT
      | str s => simp [serverTranscription_validate] at hT
      | arr xs => simp [serverTranscription_validate] at hT

/-- Classification does not depend on the try-order. -/
theorem classify_eq_status_first (j : Json) :
    classify_message j = classify_status_first j := by
  rcases validators_disjoint j with h | h
  · cases hS : serverStatus_validate j with
    | none => simp [classify_message, classify_status_first, h, hS]
    | some s => simp [classify_message, classify_status_first, h, hS]
  · cases hT : serverTranscription_validate j with
    | none => simp [classify_message, classify_status_first, h, hT]
    | some t => simp [classify_message, classify_status_first, h, hT]

/-- One receive step appends exactly the line the payload contributes. -/
theorem receive_step_transcript (st : RecvState) (msg : Json) :
    (receive_step st msg).transcript_buffer
      = st.transcript_buffer ++ (transcript_line msg).toList := by
  cases hT : serverTranscription_validate msg with
  | some t =>
      by_cases hs : pyStrip t.text ≠ ""
      · simp [receive_step, classify_message, transcript_line, hT, hs]
      · simp [receive_step, classify_message, transcript_line, hT, hs]
  | none =>
      cases hS : serverStatus_validate msg with
      | some s => simp [receive_step, classify_message, transcript_line, hT, hS]
      | none => simp [receive_step, classify_message, transcript_line, hT, hS]

/-- The receive step never touches the running flag. -/
theorem receive_step_running (st : RecvState) (msg : Json) :
    (receive_step st msg).running = st.running := by
  unfold receive_step
  cases classify_message msg with
  | transcription t => by_cases hs : pyStrip t.text ≠ "" <;> simp [hs]
  | status s => rfl
  | malformed => rfl

/-- The receive step never touches the audio buffer. -/
theorem receive_step_audio (st : RecvState) (msg : Json) :
    (receive_step st msg).audio_buffer = st.audio_buffer := by
  unfold receive_step
  cases classify_message msg with
  | transcription t => by_cases hs : pyStrip t.text ≠ "" <;> simp [hs]
  | status s => rfl
  | malformed => rfl

/-- The transcript buffer after the receive loop is the initial buffer
followed by the lines contributed by the trace, in arrival order. -/
theorem receive_loop_transcript (msgs : List Json) (st : RecvState) :
    (receive_loop msgs st).transcript_buffer
      = st.transcript_buffer ++ msgs.filterMap transcript_line := by
  induction msgs generalizing st with
  | nil => simp [receive_loop]
  | cons m ms ih =>
      rw [receive_loop, List.foldl_cons]
      rw [show List.foldl receive_step (receive_step st m) ms
            = receive_loop ms (receive_step st m) from rfl]
      rw [ih, receive_step_transcript, List.filterMap_cons]
      cases transcript_line m with
      | none => simp
      | some s => simp

/-- The send loop never assigns the running flag. -/
theorem streamAudioLoop_running (ticks : List Tick) (st : SendPathState) :
    (streamAudioLoop ticks st).running = st.running := by
  induction ticks generalizing st with
  | nil => rfl
  | cons t rest ih =>
      unfold streamAudioLoop
      by_cases hg : (t.running && t.stream_active) = true
      · rw [if_pos hg]
        cases t.send with
        | ok => rw [ih]
        | raise => by_cases hr : t.running_at_except = true <;> simp [hr]
      · rw [if_neg hg]

/-- The send loop never calls `_save_recording`; only the `finally` does. -/
theorem streamAudioLoop_saveCalls (ticks : List Tick) (st : SendPathState) :
    (streamAudioLoop ticks st).save_recording_calls
      = st.save_recording_calls := by
  induction ticks generalizing st with
  | nil => rfl
  | cons t rest ih =>
      unfold streamAudioLoop
      by_cases hg : (t.running && t.stream_active) = true
      · rw [if_pos hg]
        cases t.send with
        | ok => rw [ih]
        | raise => by_cases hr : t.running_at_except = true <;> simp [hr]
      · rw [if_neg hg]

/-- The audio buffer after the send loop is the initial buffer followed by
the frames of the leading run of iterations whose guard held and whose send
succeeded. -/
theorem streamAudioLoop_buffer (ticks : List Tick) (st : SendPathState) :
    (streamAudioLoop ticks st).audio_buffer
      = st.audio_buffer
        ++ ((ticks.takeWhile fun t =>
              t.running && t.stream_active && t.send.isOk).map Tick.frame) := by
  induction ticks generalizing st with
  | nil => simp [streamAudioLoop]
  | cons t rest ih =>
      unfold streamAudioLoop
      rw [List.takeWhile_cons]
      by_cases hg : (t.running && t.stream_active) = true
      · rw [if_pos hg]
        cases t.send with
        | ok =>
            have hp : (t.running && t.stream_active && SendOutcome.ok.isOk) = true := by
              simp [SendOutcome.isOk, hg]
            rw [if_pos hp, ih]
            simp
        | raise =>
            have hp : ¬ (t.running && t.stream_active && SendOutcome.raise.isOk) = true := by
              simp [SendOutcome.isOk]
            rw [if_neg hp]
            by_cases hr : t.running_at_except = true
            · rw [if_pos hr]
              simp
            · rw [if_neg hr]
              simp
      · rw [if_neg hg]
        have hp : ¬ (t.running && t.stream_active && t.send.isOk) = true := by
          intro hc
          rw [Bool.and_assoc] at hc
          exact hg (by
            have := (Bool.and_eq_true _ _).mp hc
            rw [Bool.and_eq_true]
            exact ⟨this.1, ((Bool.and_eq_true _ _).mp this.2).1⟩)
        rw [if_neg hp]
        simp

/-- `takeWhile` of a list whose head segment all satisfies the predicate and
whose next element fails it is exactly that head segment. -/
theorem takeWhile_all_append {α : Type} (p : α → Bool) (pre : List α) (t : α)
    (post : List α) (hpre : ∀ x ∈ pre, p x = true) (ht : p t = false) :
    (pre ++ t :: post).takeWhile p = pre := by
  induction pre with
  | nil =>
      rw [List.nil_append, List.takeWhile_cons, if_neg (by simp [ht])]
  | cons a as ih =>
      have ha := hpre a (List.mem_cons_self a as)
      rw [List.cons_append, List.takeWhile_cons, if_pos ha]
      rw [ih fun x hx => hpre x (List.mem_cons_of_mem _ hx)]

/-- A trace of clean iterations followed by a raising send logs the error
iff the running flag was still set when the `except` clause ran. -/
theorem streamAudioLoop_error (pre : List Tick) (t : Tick) (post : List Tick)
    (st : SendPathState)
    (hpre : ∀ p ∈ pre, (p.running && p.stream_active) = true ∧ p.send = SendOutcome.ok)
    (hg : (t.running && t.stream_active) = true)
    (hs : t.send = SendOutcome.raise) :
    (streamAudioLoop (pre ++ t :: post) st).error_logged
      = (st.error_logged || t.running_at_except) := by
  induction pre generalizing st with
  | nil =>
      rw [List.nil_append]
      unfold streamAudioLoop
      rw [if_pos hg, hs]
      by_cases hr : t.running_at_except = true
      · rw [if_pos hr, hr]
        simp
      · rw [if_neg hr]
        rw [Bool.not_eq_true] at hr
        rw [hr]
        simp
  | cons p ps ih =>
      have hp := hpre p (List.mem_cons_self p ps)
      rw [List.cons_append]
      unfold streamAudioLoop
      rw [if_pos hp.1, hp.2]
      exact ih _ fun x hx => hpre x (List.mem_cons_of_mem _ hx)

/-- Re-chunking the flattened buffer into frames of the fixed frame size
recovers the original frame list: the read-back direction of the audio
round trip. -/
theorem chunkBytes_flatten (k : Nat) (hk : 0 < k) (frames : List (List Nat))
    (hlen : ∀ f ∈ frames, f.length = k) :
    chunkBytes k frames.flatten = frames := by
  induction frames with
  | nil => simp [chunkBytes]
  | cons f fs ih =>
      have hf : f.length = k := hlen f (List.mem_cons_self f fs)
      cases f with
      | nil =>
          rw [List.length_nil] at hf
          omega
      | cons a f' =>
          have hflat : ((a :: f') :: fs).flatten = a :: (f' ++ fs.flatten) := by
            simp
          rw [hflat]
          rw [chunkBytes]
          rw [dif_neg (by omega : ¬ k = 0)]
          have h1 : (a :: (f' ++ fs.flatten)).take k = a :: f' := by
            rw [show a :: (f' ++ fs.flatten) = (a :: f') ++ fs.flatten from rfl]
            exact List.take_left' hf
          have h2 : (a :: (f' ++ fs.flatten)).drop k = fs.flatten := by
            rw [show a :: (f' ++ fs.flatten) = (a :: f') ++ fs.flatten from rfl]
            exact List.drop_left' hf
          rw [h1, h2, ih fun g hg => hlen g (List.mem_cons_of_mem _ hg)]

/-! ## Claims -/

/-- C1: the claim asserts that on every one of the four trigger paths both
buffers are flushed exactly once after the running flag leaves active. The
coordinator evaluates otherwise: `_save_recording` does run exactly once
whenever `_stream_audio` exits, but `_save_transcript` runs only on the
stop-signal path, because `run()` blocks on `stop_future`, which only the
signal handler resolves — on peer closure, send error or receive error the
transcript flush count stays `0` and `run()` never proceeds. -/
theorem claimC1_flush_counts :
    (session_run Trigger.stopSignal).save_recording_calls = 1
    ∧ (session_run Trigger.stopSignal).save_transcript_calls = 1
    ∧ (session_run Trigger.stopSignal).run_returns = true
    ∧ (session_run Trigger.peerClosure).save_recording_calls = 1
    ∧ (session_run Trigger.peerClosure).save_transcript_calls = 0
    ∧ (session_run Trigger.peerClosure).run_returns = false
    ∧ (session_run Trigger.sendError).save_transcript_calls = 0
    ∧ (session_run Trigger.recvError).save_transcript_calls = 0 := by
  decide

/-- C2 counterexample: after a transport-send error raised while the running
flag is true, the send path leaves the flag exactly as it was — here `true`,
not the claimed stopping/false state (`_stream_audio` contains no assignment
to `self.running`). -/
theorem claimC2_counterexample :
    (streamAudioTask [⟨true, true, [0], SendOutcome.raise, true⟩]
        ⟨true, [], false, 0⟩).running = true
    ∧ ¬ (streamAudioTask [⟨true, true, [0], SendOutcome.raise, true⟩]
        ⟨true, [], false, 0⟩).running = false := by
  decide

/-- C2 (amended): on a transport-send error raised inside the loop, the send
path exits its loop (iterations after the error never run), leaves the
shared running flag unchanged, swallows the raw error — logging it exactly
when shutdown was not already in progress at the `except` clause — and still
performs its single `finally` flush. -/
theorem claimC2_amended (st : SendPathState) (pre : List Tick) (t : Tick)
    (post : List Tick)
    (hpre : ∀ p ∈ pre, (p.running && p.stream_active) = true ∧ p.send = SendOutcome.ok)
    (hg : (t.running && t.stream_active) = true)
    (hs : t.send = SendOutcome.raise) :
    (streamAudioTask (pre ++ t :: post) st).running = st.running
    ∧ (streamAudioTask (pre ++ t :: post) st).audio_buffer
        = st.audio_buffer ++ pre.map Tick.frame
    ∧ (streamAudioTask (pre ++ t :: post) st).error_logged
        = (st.error_logged || t.running_at_except)
    ∧ (streamAudioTask (pre ++ t :: post) st).save_recording_calls
        = st.save_recording_calls + 1 := by
  have htw : (pre ++ t :: post).takeWhile
      (fun x => x.running && x.stream_active && x.send.isOk) = pre := by
    apply takeWhile_all_append
    · intro x hx
      rw [(hpre x hx).1, (hpre x hx).2]
      rfl
    · rw [hs]
      simp [SendOutcome.isOk]
  refine ⟨?_, ?_, ?_, ?_⟩
  · show (streamAudioLoop (pre ++ t :: post) st).running = st.running
    exact streamAudioLoop_running _ _
  · show (streamAudioLoop (pre ++ t :: post) st).audio_buffer = _
    rw [streamAudioLoop_buffer, htw]
  · show (streamAudioLoop (pre ++ t :: post) st).error_logged = _
    exact streamAudioLoop_error pre t post st hpre hg hs
  · show (streamAudioLoop (pre ++ t :: post) st).save_recording_calls + 1
        = st.save_recording_calls + 1
    rw [streamAudioLoop_saveCalls]

/-- C2 witness: one clean iteration, then a raising send observed with the
flag already cleared: the frame of the clean iteration is kept, the flag is
untouched, nothing is logged, and the flush ran once. -/
theorem claimC2_witness :
    (streamAudioTask [⟨true, true, [7], SendOutcome.ok, true⟩,
        ⟨true, true, [9], SendOutcome.raise, false⟩]
        ⟨true, [], false, 0⟩).running = true
    ∧ (streamAudioTask [⟨true, true, [7], SendOutcome.ok, true⟩,
        ⟨true, true, [9], SendOutcome.raise, false⟩]
        ⟨true, [], false, 0⟩).audio_buffer = [[7]]
    ∧ (streamAudioTask [⟨true, true, [7], SendOutcome.ok, true⟩,
        ⟨true, true, [9], SendOutcome.raise, false⟩]
        ⟨true, [], false, 0⟩).error_logged = false
    ∧ (streamAudioTask [⟨true, true, [7], SendOutcome.ok, true⟩,
        ⟨true, true, [9], SendOutcome.raise, false⟩]
        ⟨true, [], false, 0⟩).save_recording_calls = 1 := by
  have h := claimC2_amended ⟨true, [], false, 0⟩
    [⟨true, true, [7], SendOutcome.ok, true⟩]
    ⟨true, true, [9], SendOutcome.raise, false⟩ [] (by decide) (by decide) rfl
  exact ⟨h.1, h.2.1, h.2.2.1, h.2.2.2⟩

/-- C3: a payload failing both schema validations classifies as malformed
and is dropped: the receive step leaves the running flag, the transcript
buffer and the audio buffer untouched. -/
theorem claimC3_malformed_dropped (st : RecvState) (msg : Json)
    (hT : serverTranscription_validate msg = none)
    (hS : serverStatus_validate msg = none) :
    classify_message msg = Classified.malformed ∧ receive_step st msg = st := by
  have hc : classify_message msg = Classified.malformed := by
    simp [classify_message, hT, hS]
  exact ⟨hc, by simp [receive_step, hc]⟩

/-- C3 witness: the spec's own malformed example, an object with the unknown
key `foo`, fails both validators and leaves a concrete state unchanged. -/
theorem claimC3_witness :
    serverTranscription_validate (Json.obj [( "foo", Json.num 1)]) = none
    ∧ serverStatus_validate (Json.obj [( "foo", Json.num 1)]) = none
    ∧ classify_message (Json.obj [( "foo", Json.num 1)]) = Classified.malformed
    ∧ receive_step ⟨true, [ "x"], [[1]]⟩ (Json.obj [( "foo", Json.num 1)])
        = ⟨true, [ "x"], [[1]]⟩ := by
  have h := claimC3_malformed_dropped ⟨true, [ "x"], [[1]]⟩
    (Json.obj [( "foo", Json.num 1)]) rfl rfl
  exact ⟨rfl, rfl, h.1, h.2⟩

/-- C4: the two schemas are disjoint — no payload validates under both,
since `ServerStatus` requires the `status` key that `ServerTranscription`
forbids — so classification does not depend on the try-order. -/
theorem claimC4_schemas_disjoint (j : Json) :
    (serverTranscription_validate j = none ∨ serverStatus_validate j = none)
    ∧ classify_message j = classify_status_first j :=
  ⟨validators_disjoint j, classify_eq_status_first j⟩

/-- C5: a message validating as a Transcription appends its stripped text
exactly when that text is non-empty; the transcript buffer after any trace
is the initial buffer followed by exactly the non-empty stripped texts of
the accepted Transcription messages in arrival order; and a payload with
only a `text` field (no detected language, no confidence) validates without
error, yielding `none` for both optional fields. -/
theorem claimC5_transcript_contents (msgs : List Json) (st : RecvState)
    (msg : Json) (t : ServerTranscription)
    (hT : serverTranscription_validate msg = some t) :
    (receive_step st msg).transcript_buffer
      = st.transcript_buffer
        ++ (if pyStrip t.text ≠ "" then [pyStrip t.text] else [])
    ∧ (receive_loop msgs st).transcript_buffer
      = st.transcript_buffer ++ msgs.filterMap transcript_line
    ∧ (∀ s : String,
        serverTranscription_validate (Json.obj [( "text", Json.str s)])
          = some ⟨s, none, true, none, none⟩) := by
  refine ⟨?_, receive_loop_transcript msgs st, fun s => rfl⟩
  rw [receive_step_transcript]
  simp only [transcript_line, hT]
  by_cases hs : pyStrip t.text ≠ "" <;> simp [hs]

/-- C5 witness: the text `" hi "` is stripped to `"hi"` and appended; a trace
with the same message, a malformed one and a status message contributes
exactly that line. -/
theorem claimC5_witness :
    (receive_step ⟨true, [], []⟩
        (Json.obj [( "text", Json.str " hi ")])).transcript_buffer = [ "hi"]
    ∧ (receive_loop [Json.obj [( "text", Json.str " hi ")],
        Json.obj [( "foo", Json.num 1)],
        Json.obj [( "status", Json.str "ready")]]
        ⟨true, [], []⟩).transcript_buffer = [ "hi"] := by
  have h := claimC5_transcript_contents
    [Json.obj [( "text", Json.str " hi ")], Json.obj [( "foo", Json.num 1)],
      Json.obj [( "status", Json.str "ready")]]
    ⟨true, [], []⟩ (Json.obj [( "text", Json.str " hi ")])
    ⟨ " hi ", none, true, none, none⟩ rfl
  constructor
  · rw [h.1]
    decide
  · rw [h.2.1]
    decide

/-- C6: flushing a non-empty buffer writes the concatenation of the frames
in capture order as the artifact's PCM payload; re-chunking that payload at
the fixed frame size recovers the frames byte-identically; flushing an empty
buffer writes nothing and returns. -/
theorem claimC6_audio_roundtrip (frames : List (List Nat)) (dir : String)
    (channels sampwidth rate k : Nat) (hk : 0 < k)
    (hlen : ∀ f ∈ frames, f.length = k) :
    (frames ≠ [] →
      (save_recording channels sampwidth rate true ⟨frames, some dir⟩).2
        = some ⟨channels, sampwidth, rate, frames.flatten⟩)
    ∧ chunkBytes k frames.flatten = frames
    ∧ save_recording channels sampwidth rate true ⟨[], some dir⟩
        = (⟨[], some dir⟩, none) := by
  refine ⟨?_, chunkBytes_flatten k hk frames hlen, ?_⟩
  · intro hne
    simp only [save_recording]
    rw [if_neg (by simp [hne])]
    simp
  · simp [save_recording]

/-- C6 witness: two 2-byte frames flush to the artifact `[1, 2, 3, 4]`,
which chunks back to the original frames. -/
theorem claimC6_witness :
    (save_recording 1 2 16000 true ⟨[[1, 2], [3, 4]], some "d"⟩).2
      = some ⟨1, 2, 16000, [1, 2, 3, 4]⟩
    ∧ chunkBytes 2 [1, 2, 3, 4] = [[1, 2], [3, 4]]
    ∧ save_recording 1 2 16000 true ⟨[], some "d"⟩ = (⟨[], some "d"⟩, none) := by
  have h := claimC6_audio_roundtrip [[1, 2], [3, 4]] "d" 1 2 16000 2
    (by decide) (by decide)
  exact ⟨h.1 (by decide), h.2.1, h.2.2⟩

/-- C7: both flushes are destructive single-shot operations: a no-op on an
empty buffer, clearing the buffer whenever a write was attempted (even a
failing one, via `finally`), so an immediate second call changes nothing and
writes nothing. -/
theorem claimC7_flush_idempotent (a : AudioState) (ts : TranscriptState)
    (channels sampwidth rate : Nat) (w w1 w2 : Bool) :
    (a.audio_buffer = [] → save_recording channels sampwidth rate w a = (a, none))
    ∧ (ts.transcript_buffer = [] → save_transcript w ts = (ts, none))
    ∧ (a.audio_buffer ≠ [] → a.session_dir ≠ none →
        ((save_recording channels sampwidth rate w a).1).audio_buffer = [])
    ∧ (ts.transcript_buffer ≠ [] → ts.session_dir ≠ none →
        ((save_transcript w ts).1).transcript_buffer = [])
    ∧ save_recording channels sampwidth rate w2
        ((save_recording channels sampwidth rate w1 a).1)
        = ((save_recording channels sampwidth rate w1 a).1, none)
    ∧ save_transcript w2 ((save_transcript w1 ts).1)
        = ((save_transcript w1 ts).1, none) := by
  refine ⟨?_, ?_, ?_, ?_, ?_, ?_⟩
  · intro h
    simp only [save_recording]
    rw [if_pos (Or.inl h)]
  · intro h
    simp only [save_transcript]
    rw [if_pos (Or.inl h)]
  · intro h1 h2
    simp only [save_recording]
    rw [if_neg (not_or.mpr ⟨h1, h2⟩)]
  · intro h1 h2
    simp only [save_transcript]
    rw [if_neg (not_or.mpr ⟨h1, h2⟩)]
  · by_cases hc : a.audio_buffer = [] ∨ a.session_dir = none
    · have h1 : save_recording channels sampwidth rate w1 a = (a, none) := by
        simp only [save_recording]
        rw [if_pos hc]
      rw [h1]
      show save_recording channels sampwidth rate w2 a = (a, none)
      simp only [save_recording]
      rw [if_pos hc]
    · have h1 : (save_recording channels sampwidth rate w1 a).1
          = { a with audio_buffer := [] } := by
        simp only [save_recording]
        rw [if_neg hc]
      rw [h1]
      simp [save_recording]
  · by_cases hc : ts.transcript_buffer = [] ∨ ts.session_dir = none
    · have h1 : save_transcript w1 ts = (ts, none) := by
        simp only [save_transcript]
        rw [if_pos hc]
      rw [h1]
      show save_transcript w2 ts = (ts, none)
      simp only [save_transcript]
      rw [if_pos hc]
    · have h1 : (save_transcript w1 ts).1
          = { ts with transcript_buffer := [] } := by
        simp only [save_transcript]
        rw [if_neg hc]
      rw [h1]
      simp [save_transcript]

/-- C7 witness: a one-frame buffer is cleared by the first flush and the
second flush is a no-op; same for a one-line transcript buffer. -/
theorem claimC7_witness :
    ((save_recording 1 2 16000 true ⟨[[1]], some "d"⟩).1).audio_buffer = []
    ∧ save_recording 1 2 16000 true
        ((save_recording 1 2 16000 true ⟨[[1]], some "d"⟩).1)
        = ((save_recording 1 2 16000 true ⟨[[1]], some "d"⟩).1, none)
    ∧ ((save_transcript true ⟨[ "x"], some "d"⟩).1).transcript_buffer = []
    ∧ save_transcript true ((save_transcript true ⟨[ "x"], some "d"⟩).1)
        = ((save_transcript true ⟨[ "x"], some "d"⟩).1, none) := by
  have h := claimC7_flush_idempotent ⟨[[1]], some "d"⟩ ⟨[ "x"], some "d"⟩
    1 2 16000 true true true
  exact ⟨h.2.2.1 (by decide) (by decide), h.2.2.2.2.1,
    h.2.2.2.1 (by decide) (by decide), h.2.2.2.2.2⟩

/-- C8 counterexample: the language `"EN "` is rejected, not normalized to
`"en"` — no trimming happens before `isalpha()`, and the space makes
`"EN ".isalpha()` false — and the three-letter `"eng"` is accepted, so the
field does not demand exactly two letters. -/
theorem claimC8_counterexample :
    clientConfig_validate_language "EN " = none
    ∧ clientConfig_validate_language "eng" = some "eng" := by
  constructor
  · decide
  · decide

/-- C8 (amended): `ClientConfig` accepts exactly the alphabetic strings of
two to five characters as language codes, lowercasing them; `"EN"` yields
`"en"`, while `"12"` and the untrimmed `"EN "` are rejected at validation. -/
theorem claimC8_amended (v w : String) :
    (clientConfig_validate_language v = some w
      ↔ 2 ≤ v.length ∧ v.length ≤ 5 ∧ pyIsAlpha v = true ∧ w = pyLower v)
    ∧ clientConfig_validate_language "12" = none
    ∧ clientConfig_validate_language "EN" = some "en"
    ∧ clientConfig_validate_language "EN " = none := by
  refine ⟨?_, by decide, by decide, by decide⟩
  unfold clientConfig_validate_language
  by_cases h1 : 2 ≤ v.length ∧ v.length ≤ 5
  · rw [if_pos h1]
    have hne : v ≠ "" := by
      intro he
      have := h1.1
      rw [he] at this
      exact absurd this (by decide)
    by_cases h2 : pyIsAlpha v = true
    · rw [if_neg (fun hc => hc.2 h2)]
      constructor
      · intro hsome
        exact ⟨h1.1, h1.2, h2, (Option.some.inj hsome).symm⟩
      · rintro ⟨-, -, -, hw⟩
        rw [hw]
    · rw [if_pos ⟨hne, h2⟩]
      constructor
      · intro h
        exact absurd h (by simp)
      · rintro ⟨-, -, h2', -⟩
        exact absurd h2' h2
  · rw [if_neg h1]
    constructor
    · intro h
      exact absurd h (by simp)
    · rintro ⟨ha, hb, -, -⟩
      exact absurd ⟨ha, hb⟩ h1

/-- C8 witness: the amended characterization accepts the four-letter
mixed-case `"Abcd"` and lowercases it. -/
theorem claimC8_witness :
    clientConfig_validate_language "Abcd" = some "abcd" :=
  (claimC8_amended "Abcd" "abcd").1.mpr
    ⟨by decide, by decide, by decide, by decide⟩

/-- C9: the empty JSON object validates as a `ServerTranscription` — every
field has a default — with empty text, so it is classified as a
Transcription (not malformed) and then suppressed: the receive step changes
nothing. -/
theorem claimC9_empty_payload (st : RecvState) :
    serverTranscription_validate (Json.obj []) = some ⟨ "", none, true, none, none⟩
    ∧ classify_message (Json.obj [])
        = Classified.transcription ⟨ "", none, true, none, none⟩
    ∧ receive_step st (Json.obj []) = st := by
  exact ⟨rfl, rfl, rfl⟩

/-- C10: the audio buffer after the send loop is exactly the frames of the
leading run of iterations whose send completed successfully, in capture
order — a frame is appended only after its send returned, so a frame whose
send raised (and everything after it) never reaches the buffer nor the
flushed artifact. -/
theorem claimC10_buffer_is_sent (ticks : List Tick) (st : SendPathState) :
    (streamAudioLoop ticks st).audio_buffer
      = st.audio_buffer
        ++ ((ticks.takeWhile fun t =>
              t.running && t.stream_active && t.send.isOk).map Tick.frame)
    ∧ (streamAudioTask ticks st).audio_buffer
      = st.audio_buffer
        ++ ((ticks.takeWhile fun t =>
              t.running && t.stream_active && t.send.isOk).map Tick.frame) :=
  ⟨streamAudioLoop_buffer ticks st, streamAudioLoop_buffer ticks st⟩
